import Mathlib

/-!
Verification of the flux-local source controller slice:
`flux_local/source_controller/helm_deps.py` and
`flux_local/source_controller/oci.py`, as a shallow embedding.

External collaborators (the YAML parser, the `helm` binary runner, the
oras OCI client, the artifact cache and the filesystem) are modelled
abstractly: the filesystem is a function from a path to the recursive
`Chart.yaml` discovery result, the command runner and OCI pull are
functions returning success or an error, and effects are recorded as
explicit traces of invocations.
-/

/-- A YAML value, as produced by yaml.safe_load.  Mappings are association
lists; this is enough to express the dict test, key lookup and Python
truthiness used by the source. -/
inductive Yaml where
  | null : Yaml
  | bool : Bool → Yaml
  | int : Int → Yaml
  | str : String → Yaml
  | list : List Yaml → Yaml
  | dict : List (String × Yaml) → Yaml

/-- Python truthiness of a YAML value (`if not dependencies` in the source). -/
def Yaml.truthy : Yaml → Bool
  | .null => false
  | .bool b => b
  | .int n => n != 0
  | .str s => !s.isEmpty
  | .list xs => !xs.isEmpty
  | .dict es => !es.isEmpty

/-- Python isinstance(chart_data, dict). -/
def Yaml.isDict : Yaml → Bool
  | .dict _ => true
  | _ => false

/-- Lookup of a key in a YAML mapping, first match (keys are unique in a
parsed mapping). -/
def lookupKey : List (String × Yaml) → String → Option Yaml
  | [], _ => none
  | (k, v) :: rest, key => if k = key then some v else lookupKey rest key

/-- Python dict.get(key, default). -/
def pyDictGet (es : List (String × Yaml)) (key : String) (dflt : Yaml) : Yaml :=
  match lookupKey es key with
  | some v => v
  | none => dflt

/-- The key string used by the source: chart_data.get("dependencies", []). -/
def depsKey : String := "dependencies"

/-- Outcome of reading and yaml.safe_load-ing one Chart.yaml file: either a
yaml.YAMLError or a parsed value. -/
inductive ParseOutcome where
  | yamlError : String → ParseOutcome
  | ok : Yaml → ParseOutcome

/-- One discovered Chart.yaml descriptor: its containing directory
(chart_file.parent in the source) and its parse outcome. -/
structure ChartFile where
  dir : String
  parse : ParseOutcome

/-- HELM_BIN constant from the source. -/
def HELM_BIN : String := "helm"

/-- The argument vector built at line 78 of helm_deps.py. -/
def helmDepBuildArgs : List String := [HELM_BIN, "dependency", "build"]

/-- One external command invocation: argument vector and working directory
(command.Command(args, cwd=chart_dir, ...)). -/
structure Invocation where
  cmd : List String
  cwd : String
deriving DecidableEq, Repr

/-- The typed error raised at line 101 of helm_deps.py: it records the chart
directory and wraps the original error. -/
structure HelmException where
  chartDir : String
  cause : String
deriving DecidableEq, Repr

/-- A command runner: the external `helm` collaborator.  Given the
invocation, it succeeds or fails with the original error message. -/
def CommandRunner : Type := Invocation → Except String Unit

/-- Shallow embedding of _build_chart_dependencies (helm_deps.py lines
45-101).  Returns the trace of external invocations made together with the
result: a yaml.YAMLError is caught and logged (lines 93-94), a non-mapping
value is logged and skipped (lines 61-63), an empty or absent dependencies
entry skips the build (lines 66-69), and a failing command is re-raised as
HelmException wrapping the original error (lines 95-101). -/
def _build_chart_dependencies (oracle : CommandRunner) (cf : ChartFile) :
    List Invocation × Except HelmException Unit :=
  match cf.parse with
  | .yamlError _ => ([], .ok ())
  | .ok chart_data =>
    if chart_data.isDict = false then
      ([], .ok ())
    else
      match chart_data with
      | .dict entries =>
        let dependencies := pyDictGet entries depsKey (.list [])
        if dependencies.truthy = false then
          ([], .ok ())
        else
          let inv : Invocation := { cmd := helmDepBuildArgs, cwd := cf.dir }
          match oracle inv with
          | .ok _ => ([inv], .ok ())
          | .error e => ([inv], .error { chartDir := cf.dir, cause := e })
      | _ => ([], .ok ())

/-- The filesystem as seen by build_helm_dependencies: a path maps to none
when the path does not exist, and to the ordered list of Chart.yaml
descriptors found by path.rglob when it does. -/
def FileSystem : Type := String → Option (List ChartFile)

/-- The for-loop of build_helm_dependencies (lines 41-42): descriptors are
processed sequentially; a raised HelmException aborts the loop. -/
def buildLoop (oracle : CommandRunner) :
    List ChartFile → List Invocation × Except HelmException Unit
  | [] => ([], .ok ())
  | cf :: rest =>
    match _build_chart_dependencies oracle cf with
    | (t, .ok _) =>
      match buildLoop oracle rest with
      | (t2, r2) => (t ++ t2, r2)
    | (t, .error e) => (t, .error e)

/-- Shallow embedding of build_helm_dependencies (helm_deps.py lines
16-42).  A non-existent path returns immediately (lines 29-31), an empty
discovery result returns immediately (lines 34-37), otherwise each
descriptor is processed in discovery order. -/
def build_helm_dependencies (oracle : CommandRunner) (fs : FileSystem)
    (local_path : String) : List Invocation × Except HelmException Unit :=
  match fs local_path with
  | none => ([], .ok ())
  | some chart_files =>
    if chart_files.isEmpty then ([], .ok ())
    else buildLoop oracle chart_files

/-- The condition under which the source actually invokes helm for a
descriptor: it parsed, is a mapping, and its dependencies entry is truthy. -/
def ChartFile.declaresDeps (cf : ChartFile) : Bool :=
  match cf.parse with
  | .yamlError _ => false
  | .ok (.dict es) => (pyDictGet es depsKey (.list [])).truthy
  | .ok _ => false

/-- The descriptor declares a non-empty dependency list, literally: it
parsed, is a mapping, and its dependencies key holds a non-empty YAML
list. -/
def ChartFile.hasNonEmptyDepList (cf : ChartFile) : Bool :=
  match cf.parse with
  | .ok (.dict es) =>
    match lookupKey es depsKey with
    | some (.list xs) => !xs.isEmpty
    | _ => false
  | _ => false

/-- The dependencies entry, when the descriptor is a parsed mapping, is
either absent or a YAML list — the shape every real Chart.yaml has. -/
def ChartFile.depsWellFormed (cf : ChartFile) : Bool :=
  match cf.parse with
  | .ok (.dict es) =>
    match lookupKey es depsKey with
    | some (.list _) => true
    | some _ => false
    | none => true
  | _ => true

/-- The descriptor is a parsed mapping whose dependencies entry is absent
or the empty list. -/
def ChartFile.depsEmptyOrAbsent (cf : ChartFile) : Bool :=
  match cf.parse with
  | .ok (.dict es) =>
    match lookupKey es depsKey with
    | none => true
    | some (.list xs) => xs.isEmpty
    | some _ => false
  | _ => false

/-- The single helm-dependency-build invocation constructed for a
descriptor: helm dependency build, run in the descriptor's directory. -/
def invOf (cf : ChartFile) : Invocation :=
  { cmd := helmDepBuildArgs, cwd := cf.dir }

/-- The OCIRepository resource object as fetch_oci reads it.  The manifest
layer is an external collaborator, so the values returned by the accessors
obj.url, obj.ref, obj.version() and obj.versioned_url() are carried as
data. -/
structure OCIRepository where
  url : String
  ref : String
  version : String
  versioned_url : String

/-- The artifact value constructed at oci.py lines 29-33. -/
structure OCIArtifact where
  url : String
  ref : String
  local_path : String
deriving DecidableEq, Repr

/-- The collaborators fetch_oci uses: the artifact cache's
get_repo_path(url, version), the oras client's pull(target, outdir), and
the command runner and filesystem consumed by build_helm_dependencies. -/
structure FetchEnv where
  get_repo_path : String → String → String
  pull : String → String → Except String Unit
  oracle : CommandRunner
  fs : FileSystem

/-- Externally visible events of a fetch_oci run: an OCI pull with its
target and output directory, or a helm invocation made by the dependency
build. -/
inductive FetchEvent where
  | pull : String → String → FetchEvent
  | helmBuild : Invocation → FetchEvent
deriving DecidableEq, Repr

/-- Errors escaping fetch_oci: a failed oras pull, or the HelmException
propagating out of build_helm_dependencies. -/
inductive FetchError where
  | pullError : String → FetchError
  | helm : HelmException → FetchError
deriving DecidableEq, Repr

/-- Shallow embedding of fetch_oci (oci.py lines 15-33): resolve the cache
path for (obj.url, obj.version()), pull obj.versioned_url() into it, run
build_helm_dependencies over the fetched tree, and construct the
OCIArtifact.  The trace records the external operations in order. -/
def fetch_oci (env : FetchEnv) (obj : OCIRepository) :
    List FetchEvent × Except FetchError OCIArtifact :=
  let oci_repo_path := env.get_repo_path obj.url obj.version
  match env.pull obj.versioned_url oci_repo_path with
  | .error e => ([.pull obj.versioned_url oci_repo_path], .error (.pullError e))
  | .ok _ =>
    match build_helm_dependencies env.oracle env.fs oci_repo_path with
    | (t, .error e) =>
      (.pull obj.versioned_url oci_repo_path :: t.map .helmBuild, .error (.helm e))
    | (t, .ok _) =>
      (.pull obj.versioned_url oci_repo_path :: t.map .helmBuild,
       .ok { url := obj.url, ref := obj.ref, local_path := oci_repo_path })

/-- fetch_oci with the input object held in an explicit heap, statement by
statement: every attribute access reads heap k, and — since the source
contains no assignment to the object — the heap is threaded unchanged
through every step.  Used to state the frame property. -/
def fetch_oci_heap (env : FetchEnv) (heap : Nat → OCIRepository) (k : Nat) :
    (Nat → OCIRepository) × (List FetchEvent × Except FetchError OCIArtifact) :=
  let oci_repo_path := env.get_repo_path (heap k).url (heap k).version
  match env.pull (heap k).versioned_url oci_repo_path with
  | .error e =>
    (heap, ([.pull (heap k).versioned_url oci_repo_path], .error (.pullError e)))
  | .ok _ =>
    match build_helm_dependencies env.oracle env.fs oci_repo_path with
    | (t, .error e) =>
      (heap, (.pull (heap k).versioned_url oci_repo_path :: t.map .helmBuild,
              .error (.helm e)))
    | (t, .ok _) =>
      (heap, (.pull (heap k).versioned_url oci_repo_path :: t.map .helmBuild,
              .ok { url := (heap k).url, ref := (heap k).ref,
                    local_path := oci_repo_path }))

/-- Concatenated invocation traces of a list of descriptors. -/
def tracesOf (oracle : CommandRunner) : List ChartFile → List Invocation
  | [] => []
  | cf :: rest => (_build_chart_dependencies oracle cf).1 ++ tracesOf oracle rest

/-- Closed form of _build_chart_dependencies: a descriptor either passes the
declaresDeps test and produces exactly one invocation in its own directory,
with the command result mapped into a HelmException on failure, or it makes
no invocation and succeeds. -/
theorem bcd_eq (oracle : CommandRunner) (cf : ChartFile) :
    _build_chart_dependencies oracle cf =
      if cf.declaresDeps then
        ([invOf cf],
          Except.mapError (fun e => { chartDir := cf.dir, cause := e })
            (oracle (invOf cf)))
      else ([], .ok ()) := by
  obtain ⟨dir, parse⟩ := cf
  cases parse with
  | yamlError m => simp [_build_chart_dependencies, ChartFile.declaresDeps]
  | ok y =>
    cases y with
    | dict es =>
      simp only [_build_chart_dependencies, ChartFile.declaresDeps, Yaml.isDict, invOf]
      cases h : (pyDictGet es depsKey (Yaml.list [])).truthy with
      | false => simp [h]
      | true =>
        simp only [h, Bool.true_eq_false, if_neg, reduceIte, if_true]
        cases ho : oracle { cmd := helmDepBuildArgs, cwd := dir } with
        | ok u => cases u; simp [Except.mapError]
        | error e => simp [Except.mapError]
    | null => simp [_build_chart_dependencies, ChartFile.declaresDeps, Yaml.isDict]
    | bool b => simp [_build_chart_dependencies, ChartFile.declaresDeps, Yaml.isDict]
    | int n => simp [_build_chart_dependencies, ChartFile.declaresDeps, Yaml.isDict]
    | str s => simp [_build_chart_dependencies, ChartFile.declaresDeps, Yaml.isDict]
    | list xs => simp [_build_chart_dependencies, ChartFile.declaresDeps, Yaml.isDict]

/-- A descriptor whose own command invocation succeeds produces its
invocation (when it declares dependencies) and the loop continues. -/
theorem bcd_ok (oracle : CommandRunner) (cf : ChartFile)
    (h : oracle (invOf cf) = .ok ()) :
    _build_chart_dependencies oracle cf =
      ((if cf.declaresDeps then [invOf cf] else []), .ok ()) := by
  rw [bcd_eq]
  cases hd : cf.declaresDeps <;> simp [h, Except.mapError]

/-- A descriptor that does not pass the declaresDeps test makes no
invocation and succeeds. -/
theorem bcd_skip (oracle : CommandRunner) (cf : ChartFile)
    (h : cf.declaresDeps = false) :
    _build_chart_dependencies oracle cf = ([], .ok ()) := by
  rw [bcd_eq, h]
  simp

/-- The loop over a prefix of successfully handled descriptors contributes
its traces and control continues with the rest. -/
theorem buildLoop_append_ok (oracle : CommandRunner) (pre rest : List ChartFile)
    (h : ∀ cf ∈ pre, (_build_chart_dependencies oracle cf).2 = .ok ()) :
    buildLoop oracle (pre ++ rest) =
      (tracesOf oracle pre ++ (buildLoop oracle rest).1,
       (buildLoop oracle rest).2) := by
  induction pre with
  | nil => simp [tracesOf]
  | cons cf pre ih =>
    have hcf : (_build_chart_dependencies oracle cf).2 = .ok () := h cf (by simp)
    have ih2 := ih (fun x hx => h x (by simp [hx]))
    rcases hb : _build_chart_dependencies oracle cf with ⟨t, r⟩
    rw [hb] at hcf
    simp only at hcf
    subst hcf
    simp only [List.cons_append, buildLoop, hb, List.append_eq, ih2, tracesOf,
      List.append_assoc]

/-- A failing head descriptor ends the loop with its own trace and error. -/
theorem buildLoop_cons_error (oracle : CommandRunner) (cf : ChartFile)
    (post : List ChartFile) (e : HelmException)
    (h : (_build_chart_dependencies oracle cf).2 = .error e) :
    buildLoop oracle (cf :: post) =
      ((_build_chart_dependencies oracle cf).1, .error e) := by
  rcases hb : _build_chart_dependencies oracle cf with ⟨t, r⟩
  rw [hb] at h
  simp only at h
  subst h
  simp [buildLoop, hb]

/-- Removing a descriptor that is handled as a silent skip does not change
the loop's behaviour. -/
theorem buildLoop_skip_elem (oracle : CommandRunner) (mal : ChartFile)
    (hm : _build_chart_dependencies oracle mal = ([], .ok ()))
    (pre post : List ChartFile) :
    buildLoop oracle (pre ++ mal :: post) = buildLoop oracle (pre ++ post) := by
  induction pre with
  | nil => simp [buildLoop, hm]
  | cons cf pre ih =>
    rcases hb : _build_chart_dependencies oracle cf with ⟨t, r⟩
    cases r with
    | ok u => simp [buildLoop, hb, ih]
    | error e => simp [buildLoop, hb]

/-- When every declaring descriptor's command succeeds, the loop performs
exactly one invocation per declaring descriptor, in order. -/
theorem buildLoop_ok (oracle : CommandRunner) (files : List ChartFile)
    (h : ∀ cf ∈ files, oracle (invOf cf) = .ok ()) :
    buildLoop oracle files =
      ((files.filter ChartFile.declaresDeps).map invOf, .ok ()) := by
  induction files with
  | nil => simp [buildLoop]
  | cons cf rest ih =>
    have hcf := h cf (by simp)
    have ih2 := ih (fun x hx => h x (by simp [hx]))
    cases hd : cf.declaresDeps with
    | false =>
      simp [buildLoop, bcd_ok oracle cf hcf, hd, ih2, List.filter_cons]
    | true =>
      simp [buildLoop, bcd_ok oracle cf hcf, hd, ih2, List.filter_cons]

/-- When no descriptor declares dependencies, the loop is a silent no-op. -/
theorem buildLoop_all_skip (oracle : CommandRunner) (files : List ChartFile)
    (h : ∀ cf ∈ files, cf.declaresDeps = false) :
    buildLoop oracle files = ([], .ok ()) := by
  induction files with
  | nil => simp [buildLoop]
  | cons cf rest ih =>
    have hcf := h cf (by simp)
    have ih2 := ih (fun x hx => h x (by simp [hx]))
    simp [buildLoop, bcd_skip oracle cf hcf, ih2]

/-- For a descriptor whose dependencies entry has the shape every real
Chart.yaml has (absent or a list), the code's truthiness test coincides
with declaring a non-empty dependency list. -/
theorem declaresDeps_eq_hasNonEmptyDepList (cf : ChartFile)
    (h : cf.depsWellFormed = true) :
    cf.declaresDeps = cf.hasNonEmptyDepList := by
  obtain ⟨dir, parse⟩ := cf
  cases parse with
  | yamlError m => rfl
  | ok y =>
    cases y with
    | dict es =>
      simp only [ChartFile.depsWellFormed] at h
      simp only [ChartFile.declaresDeps, ChartFile.hasNonEmptyDepList, pyDictGet]
      cases hl : lookupKey es depsKey with
      | none => simp [Yaml.truthy]
      | some v =>
        rw [hl] at h
        cases v <;> simp_all [Yaml.truthy]
    | null => rfl
    | bool b => rfl
    | int n => rfl
    | str s => rfl
    | list xs => rfl

/-- A descriptor whose dependencies entry is absent or the empty list does
not pass the code's truthiness test. -/
theorem declaresDeps_false_of_emptyOrAbsent (cf : ChartFile)
    (h : cf.depsEmptyOrAbsent = true) :
    cf.declaresDeps = false := by
  obtain ⟨dir, parse⟩ := cf
  cases parse with
  | yamlError m => rfl
  | ok y =>
    cases y with
    | dict es =>
      simp only [ChartFile.depsEmptyOrAbsent] at h
      simp only [ChartFile.declaresDeps, pyDictGet]
      cases hl : lookupKey es depsKey with
      | none => simp [Yaml.truthy]
      | some v =>
        rw [hl] at h
        cases v <;> simp_all [Yaml.truthy]
    | null => rfl
    | bool b => rfl
    | int n => rfl
    | str s => rfl
    | list xs => rfl

/-- C1: for every fetched directory tree (whose descriptors have
list-shaped or absent dependencies entries, as every real Chart.yaml has),
when the external command succeeds, build_helm_dependencies invokes the
dependency-build command exactly once per discovered Chart.yaml descriptor
that declares a non-empty dependency list — in discovery order — and each
invocation is helm dependency build with working directory equal to that
descriptor's containing directory. -/
theorem C1_one_build_per_dependent_descriptor (oracle : CommandRunner)
    (fs : FileSystem) (local_path : String) (files : List ChartFile)
    (hfs : fs local_path = some files)
    (hwf : ∀ cf ∈ files, cf.depsWellFormed = true)
    (hok : ∀ cf ∈ files, oracle (invOf cf) = .ok ()) :
    build_helm_dependencies oracle fs local_path =
      ((files.filter ChartFile.hasNonEmptyDepList).map invOf, .ok ()) := by
  have hfilter : files.filter ChartFile.declaresDeps =
      files.filter ChartFile.hasNonEmptyDepList :=
    List.filter_congr (fun cf hcf => declaresDeps_eq_hasNonEmptyDepList cf (hwf cf hcf))
  simp only [build_helm_dependencies, hfs]
  by_cases hemp : files.isEmpty
  · rw [List.isEmpty_iff] at hemp
    subst hemp
    simp
  · rw [if_neg hemp, buildLoop_ok oracle files hok, hfilter]

/-- C2: when every discovered descriptor is a mapping whose dependencies
entry is absent or the empty list, build_helm_dependencies makes no
invocation at all and returns successfully. -/
theorem C2_no_deps_no_invocation (oracle : CommandRunner) (fs : FileSystem)
    (local_path : String) (files : List ChartFile)
    (hfs : fs local_path = some files)
    (h : ∀ cf ∈ files, cf.depsEmptyOrAbsent = true) :
    build_helm_dependencies oracle fs local_path = ([], .ok ()) := by
  simp only [build_helm_dependencies, hfs]
  by_cases hemp : files.isEmpty
  · simp [hemp]
  · rw [if_neg hemp]
    exact buildLoop_all_skip oracle files
      (fun cf hcf => declaresDeps_false_of_emptyOrAbsent cf (h cf hcf))

/-- C3: whenever the external dependency-build invocation for some reached
chart descriptor fails (every earlier descriptor having been handled
without error), build_helm_dependencies fails as a whole with the typed
HelmException wrapping the original error for that descriptor's
directory, aborting instead of continuing. -/
theorem C3_build_failure_raises_HelmException (oracle : CommandRunner)
    (fs : FileSystem) (local_path : String) (files pre post : List ChartFile)
    (cf : ChartFile) (c : String)
    (hfs : fs local_path = some files)
    (hsplit : files = pre ++ cf :: post)
    (hpre : ∀ p ∈ pre, (_build_chart_dependencies oracle p).2 = .ok ())
    (hdecl : cf.declaresDeps = true)
    (hfail : oracle (invOf cf) = .error c) :
    (build_helm_dependencies oracle fs local_path).2 =
      .error { chartDir := cf.dir, cause := c } := by
  have hcf : _build_chart_dependencies oracle cf =
      ([invOf cf], .error { chartDir := cf.dir, cause := c }) := by
    rw [bcd_eq, hdecl, hfail]
    simp [Except.mapError]
  subst hsplit
  simp only [build_helm_dependencies, hfs]
  rw [if_neg (by simp)]
  rw [buildLoop_append_ok oracle pre (cf :: post) hpre]
  rw [buildLoop_cons_error oracle cf post _ (by rw [hcf])]

/-- C4: a descriptor whose content fails to YAML-parse never raises: by
itself it produces no invocation and succeeds, and the whole run over a
tree containing it is identical to the run over the same tree with that
descriptor removed — the remaining descriptors are processed exactly the
same, so a malformed descriptor alone cannot make the fetch fail. -/
theorem C4_malformed_descriptor_skipped (oracle : CommandRunner)
    (local_path : String) (pre post : List ChartFile) (mal : ChartFile)
    (m : String) (hmal : mal.parse = .yamlError m) :
    _build_chart_dependencies oracle mal = ([], .ok ()) ∧
    build_helm_dependencies oracle (fun _ => some (pre ++ mal :: post)) local_path =
      build_helm_dependencies oracle (fun _ => some (pre ++ post)) local_path := by
  have hskip : _build_chart_dependencies oracle mal = ([], .ok ()) := by
    simp [_build_chart_dependencies, hmal]
  refine ⟨hskip, ?_⟩
  simp only [build_helm_dependencies]
  rw [buildLoop_skip_elem oracle mal hskip pre post]
  by_cases hemp : (pre ++ post).isEmpty
  · rw [if_neg (by simp), if_pos hemp]
    rw [List.isEmpty_iff, List.append_eq_nil] at hemp
    obtain ⟨h1, h2⟩ := hemp
    subst h1
    subst h2
    simp [buildLoop]
  · rw [if_neg (by simp), if_neg hemp]

/-- C6: a path that does not exist, or whose tree contains no Chart.yaml
descriptor, is a silent no-op: no invocation and a successful return. -/
theorem C6_missing_or_chartless_tree_is_noop (oracle : CommandRunner)
    (fs : FileSystem) (local_path : String)
    (h : fs local_path = none ∨ fs local_path = some []) :
    build_helm_dependencies oracle fs local_path = ([], .ok ()) := by
  rcases h with h | h <;> simp [build_helm_dependencies, h]

/-- C9: a descriptor that parses to a value that is not a mapping (a list,
a scalar, or the null produced by an empty document) is skipped: no
invocation is made for it and no error is raised. -/
theorem C9_non_mapping_descriptor_skipped (oracle : CommandRunner)
    (cf : ChartFile) (v : Yaml) (hp : cf.parse = .ok v)
    (hd : v.isDict = false) :
    _build_chart_dependencies oracle cf = ([], .ok ()) := by
  obtain ⟨dir, parse⟩ := cf
  simp only at hp
  subst hp
  cases v <;> simp_all [_build_chart_dependencies, Yaml.isDict]

/-- C10: descriptors are processed sequentially in discovery order; when
the dependency build fails at one descriptor, the run's trace is exactly
the invocations of the earlier descriptors followed by the failing
descriptor's invocation — nothing from any later descriptor — and the
earlier invocations remain performed (not undone). -/
theorem C10_sequential_and_fail_fast (oracle : CommandRunner)
    (fs : FileSystem) (local_path : String) (files pre post : List ChartFile)
    (cf : ChartFile) (e : HelmException)
    (hfs : fs local_path = some files)
    (hsplit : files = pre ++ cf :: post)
    (hpre : ∀ p ∈ pre, (_build_chart_dependencies oracle p).2 = .ok ())
    (hfail : (_build_chart_dependencies oracle cf).2 = .error e) :
    build_helm_dependencies oracle fs local_path =
      (tracesOf oracle pre ++ (_build_chart_dependencies oracle cf).1,
       .error e) := by
  subst hsplit
  simp only [build_helm_dependencies, hfs]
  rw [if_neg (by simp)]
  rw [buildLoop_append_ok oracle pre (cf :: post) hpre]
  rw [buildLoop_cons_error oracle cf post e hfail]

/-- A concrete OCIRepository with a pinned (non-floating) declared
version. -/
def pinnedObj : OCIRepository :=
  { url := "oci://registry.example/charts/app",
    ref := "1.2.3",
    version := "1.2.3",
    versioned_url := "oci://registry.example/charts/app:1.2.3" }

/-- A concrete environment representing a state in which the Artifact
Cache already holds a usable fetched tree for the key: the cache maps the
key to a fixed path and the filesystem at that path already contains a
chart descriptor from a completed earlier fetch. -/
def warmCacheEnv : FetchEnv :=
  { get_repo_path := fun _ _ => "/cache/oci-abc123",
    pull := fun _ _ => .ok (),
    oracle := fun _ => .ok (),
    fs := fun _ => some [{ dir := "/cache/oci-abc123/app",
                           parse := .ok (.dict [("name", .str "app")]) }] }

/-- C5 counterexample: with the cache already holding a usable path for
the key and the object's version pinned, fetch_oci still performs the OCI
pull — its event trace contains the pull — so the external fetch is not
skipped. -/
theorem C5_counterexample_pull_not_skipped :
    (fetch_oci warmCacheEnv pinnedObj).1 =
      [FetchEvent.pull "oci://registry.example/charts/app:1.2.3"
        "/cache/oci-abc123"] := by rfl

/-- C5 amended: fetch_oci performs the OCI pull unconditionally — for
every environment and object its event trace begins with the pull of
obj.versioned_url() into the cache-assigned path — the Artifact Cache is
consulted only to choose the destination directory, and no cache-hit or
pinned-version check skips the fetch. -/
theorem C5_amended_fetch_always_pulls (env : FetchEnv) (obj : OCIRepository) :
    ∃ rest, (fetch_oci env obj).1 =
      FetchEvent.pull obj.versioned_url (env.get_repo_path obj.url obj.version)
        :: rest := by
  simp only [fetch_oci]
  cases hp : env.pull obj.versioned_url (env.get_repo_path obj.url obj.version) with
  | error e => exact ⟨[], rfl⟩
  | ok u =>
    rcases hb : build_helm_dependencies env.oracle env.fs
        (env.get_repo_path obj.url obj.version) with ⟨t, r⟩
    cases r with
    | ok v => exact ⟨t.map FetchEvent.helmBuild, by simp [hp, hb]⟩
    | error e => exact ⟨t.map FetchEvent.helmBuild, by simp [hp, hb]⟩

/-- C7: a successful fetch_oci pulled obj.versioned_url() into the
cache-assigned destination path for (obj.url, obj.version()) first, then
ran the chart-dependency discovery and build over that fetched tree, and
returned an OCIArtifact whose url is obj.url, whose ref is obj.ref and
whose local_path is exactly that cache-assigned path. -/
theorem C7_success_shape (env : FetchEnv) (obj : OCIRepository)
    (t : List FetchEvent) (a : OCIArtifact)
    (h : fetch_oci env obj = (t, .ok a)) :
    a = { url := obj.url, ref := obj.ref,
          local_path := env.get_repo_path obj.url obj.version } ∧
    env.pull obj.versioned_url (env.get_repo_path obj.url obj.version) = .ok () ∧
    t = FetchEvent.pull obj.versioned_url (env.get_repo_path obj.url obj.version)
        :: (build_helm_dependencies env.oracle env.fs
              (env.get_repo_path obj.url obj.version)).1.map FetchEvent.helmBuild := by
  simp only [fetch_oci] at h
  cases hp : env.pull obj.versioned_url (env.get_repo_path obj.url obj.version) with
  | error e => rw [hp] at h; simp at h
  | ok u =>
    rw [hp] at h
    rcases hb : build_helm_dependencies env.oracle env.fs
        (env.get_repo_path obj.url obj.version) with ⟨t2, r⟩
    rw [hb] at h
    cases r with
    | error e => simp at h
    | ok v =>
      simp only [Prod.mk.injEq, Except.ok.injEq] at h
      obtain ⟨ht, ha⟩ := h
      cases u
      exact ⟨ha.symm, rfl, ht.symm⟩

/-- C8: fetch_oci never mutates its input object.  In the heap-threaded
embedding — a statement-by-statement translation in which every attribute
access reads the heap and any assignment would have to write it — the heap
after the call equals the heap before it, whether the call succeeds or
fails, and the call computes exactly what the pure fetch_oci computes on
the object read from the heap. -/
theorem C8_fetch_oci_no_mutation (env : FetchEnv)
    (heap : Nat → OCIRepository) (k : Nat) :
    (fetch_oci_heap env heap k).1 = heap ∧
    (fetch_oci_heap env heap k).2 = fetch_oci env (heap k) := by
  simp only [fetch_oci_heap, fetch_oci]
  cases hp : env.pull (heap k).versioned_url
      (env.get_repo_path (heap k).url (heap k).version) with
  | error e => simp [hp]
  | ok u =>
    rcases hb : build_helm_dependencies env.oracle env.fs
        (env.get_repo_path (heap k).url (heap k).version) with ⟨t, r⟩
    cases r with
    | ok v => simp [hp, hb]
    | error e => simp [hp, hb]

/-- The spec's example umbrella chart: one declared dependency. -/
def umbrellaChart : ChartFile :=
  { dir := "charts/umbrella",
    parse := .ok (.dict [("name", .str "umbrella-chart"),
                         (depsKey, .list [.dict [("name", .str "nginx")]])]) }

/-- The spec's example simple chart: no dependencies entry. -/
def simpleChart : ChartFile :=
  { dir := "charts/simple",
    parse := .ok (.dict [("name", .str "simple-chart")]) }

/-- A chart with an explicitly empty dependency list. -/
def emptyDepsChart : ChartFile :=
  { dir := "charts/empty",
    parse := .ok (.dict [(depsKey, .list [])]) }

/-- A command runner for which every invocation succeeds. -/
def okOracle : CommandRunner := fun _ => .ok ()

/-- A command runner for which every invocation fails. -/
def failOracle : CommandRunner := fun _ => .error "exit status 1"

/-- The spec's example tree rooted at any path. -/
def exampleFS : FileSystem := fun _ => some [umbrellaChart, simpleChart]

/-- C1 witness: on the spec's example tree the run makes exactly one
invocation, helm dependency build in charts/umbrella. -/
theorem C1_one_build_per_dependent_descriptor_witness :
    exampleFS "root" = some [umbrellaChart, simpleChart] ∧
    (∀ cf ∈ [umbrellaChart, simpleChart], cf.depsWellFormed = true) ∧
    (∀ cf ∈ [umbrellaChart, simpleChart], okOracle (invOf cf) = .ok ()) ∧
    build_helm_dependencies okOracle exampleFS "root" =
      (([umbrellaChart, simpleChart].filter ChartFile.hasNonEmptyDepList).map invOf,
       .ok ()) ∧
    ([umbrellaChart, simpleChart].filter ChartFile.hasNonEmptyDepList).map invOf =
      [{ cmd := helmDepBuildArgs, cwd := "charts/umbrella" }] :=
  ⟨rfl, by decide, fun cf _ => rfl,
   C1_one_build_per_dependent_descriptor okOracle exampleFS "root"
     [umbrellaChart, simpleChart] rfl (by decide) (fun cf _ => rfl),
   by decide⟩

/-- C2 witness: a tree whose two descriptors have an absent and an empty
dependency list makes no invocation and succeeds. -/
theorem C2_no_deps_no_invocation_witness :
    (fun _ => some [simpleChart, emptyDepsChart] : FileSystem) "root" =
      some [simpleChart, emptyDepsChart] ∧
    (∀ cf ∈ [simpleChart, emptyDepsChart], cf.depsEmptyOrAbsent = true) ∧
    build_helm_dependencies okOracle (fun _ => some [simpleChart, emptyDepsChart])
      "root" = ([], .ok ()) :=
  ⟨rfl, by decide,
   C2_no_deps_no_invocation okOracle (fun _ => some [simpleChart, emptyDepsChart])
     "root" [simpleChart, emptyDepsChart] rfl (by decide)⟩

/-- C3 witness: with a failing helm runner, a tree whose second descriptor
declares a dependency aborts with the HelmException for that descriptor's
directory wrapping the original error. -/
theorem C3_build_failure_raises_HelmException_witness :
    (fun _ => some [simpleChart, umbrellaChart] : FileSystem) "root" =
      some [simpleChart, umbrellaChart] ∧
    [simpleChart, umbrellaChart] = [simpleChart] ++ umbrellaChart :: [] ∧
    (∀ p ∈ [simpleChart], (_build_chart_dependencies failOracle p).2 = .ok ()) ∧
    umbrellaChart.declaresDeps = true ∧
    failOracle (invOf umbrellaChart) = .error "exit status 1" ∧
    (build_helm_dependencies failOracle
        (fun _ => some [simpleChart, umbrellaChart]) "root").2 =
      .error { chartDir := umbrellaChart.dir, cause := "exit status 1" } :=
  ⟨rfl, rfl,
   fun p hp => by
     rw [List.mem_singleton] at hp
     subst hp
     rfl,
   by decide, rfl,
   C3_build_failure_raises_HelmException failOracle
     (fun _ => some [simpleChart, umbrellaChart]) "root"
     [simpleChart, umbrellaChart] [simpleChart] [] umbrellaChart
     "exit status 1" rfl rfl
     (fun p hp => by
       rw [List.mem_singleton] at hp
       subst hp
       rfl)
     (by decide) rfl⟩

/-- A descriptor whose content fails to YAML-parse. -/
def malformedChart : ChartFile :=
  { dir := "charts/bad",
    parse := .yamlError "mapping values are not allowed here" }

/-- C4 witness: inserting the malformed descriptor between the example
descriptors changes nothing — it is skipped, and the run equals the run on
the tree without it. -/
theorem C4_malformed_descriptor_skipped_witness :
    malformedChart.parse = .yamlError "mapping values are not allowed here" ∧
    _build_chart_dependencies okOracle malformedChart = ([], .ok ()) ∧
    build_helm_dependencies okOracle
        (fun _ => some ([umbrellaChart] ++ malformedChart :: [simpleChart]))
        "root" =
      build_helm_dependencies okOracle
        (fun _ => some ([umbrellaChart] ++ [simpleChart])) "root" :=
  ⟨rfl,
   (C4_malformed_descriptor_skipped okOracle "root" [umbrellaChart] [simpleChart]
     malformedChart "mapping values are not allowed here" rfl).1,
   (C4_malformed_descriptor_skipped okOracle "root" [umbrellaChart] [simpleChart]
     malformedChart "mapping values are not allowed here" rfl).2⟩

/-- C6 witness: a filesystem on which the path does not exist yields no
invocation and a successful return. -/
theorem C6_missing_or_chartless_tree_is_noop_witness :
    ((fun _ => none : FileSystem) "missing" = none ∨
      (fun _ => none : FileSystem) "missing" = some []) ∧
    build_helm_dependencies okOracle (fun _ => none) "missing" = ([], .ok ()) :=
  ⟨Or.inl rfl,
   C6_missing_or_chartless_tree_is_noop okOracle (fun _ => none) "missing"
     (Or.inl rfl)⟩

/-- A concrete fetch environment whose pull succeeds and whose fetched
tree holds one dependency-free chart. -/
def plainFetchEnv : FetchEnv :=
  { get_repo_path := fun _ _ => "/cache/oci-xyz",
    pull := fun _ _ => .ok (),
    oracle := okOracle,
    fs := fun _ => some [simpleChart] }

/-- C7 witness: a concrete successful fetch returns the artifact built
from the object's url and ref and the cache-assigned path, after pulling
first and then running the dependency build over the fetched tree. -/
theorem C7_success_shape_witness :
    fetch_oci plainFetchEnv pinnedObj =
      ([FetchEvent.pull "oci://registry.example/charts/app:1.2.3" "/cache/oci-xyz"],
       .ok { url := "oci://registry.example/charts/app", ref := "1.2.3",
             local_path := "/cache/oci-xyz" }) ∧
    ({ url := "oci://registry.example/charts/app", ref := "1.2.3",
       local_path := "/cache/oci-xyz" } : OCIArtifact) =
      { url := pinnedObj.url, ref := pinnedObj.ref,
        local_path := plainFetchEnv.get_repo_path pinnedObj.url pinnedObj.version } ∧
    plainFetchEnv.pull pinnedObj.versioned_url
      (plainFetchEnv.get_repo_path pinnedObj.url pinnedObj.version) = .ok () ∧
    [FetchEvent.pull "oci://registry.example/charts/app:1.2.3" "/cache/oci-xyz"] =
      FetchEvent.pull pinnedObj.versioned_url
          (plainFetchEnv.get_repo_path pinnedObj.url pinnedObj.version)
        :: (build_helm_dependencies plainFetchEnv.oracle plainFetchEnv.fs
              (plainFetchEnv.get_repo_path pinnedObj.url
                pinnedObj.version)).1.map FetchEvent.helmBuild :=
  ⟨rfl,
   (C7_success_shape plainFetchEnv pinnedObj _ _ rfl).1.symm.trans (by rfl),
   (C7_success_shape plainFetchEnv pinnedObj _ _ rfl).2.1,
   (C7_success_shape plainFetchEnv pinnedObj _ _ rfl).2.2⟩

/-- A descriptor that parses to a top-level list rather than a mapping. -/
def listChart : ChartFile :=
  { dir := "charts/listy",
    parse := .ok (.list [.str "oops"]) }

/-- C9 witness: the list-valued descriptor is skipped with no invocation
and no error. -/
theorem C9_non_mapping_descriptor_skipped_witness :
    listChart.parse = .ok (.list [.str "oops"]) ∧
    (Yaml.list [.str "oops"]).isDict = false ∧
    _build_chart_dependencies okOracle listChart = ([], .ok ()) :=
  ⟨rfl, rfl,
   C9_non_mapping_descriptor_skipped okOracle listChart (.list [.str "oops"])
     rfl rfl⟩

/-- A second and a third chart that declare dependencies. -/
def secondChart : ChartFile :=
  { dir := "charts/second",
    parse := .ok (.dict [(depsKey, .list [.dict [("name", .str "redis")]])]) }

/-- A chart after the failing one, never reached by the loop. -/
def thirdChart : ChartFile :=
  { dir := "charts/third",
    parse := .ok (.dict [(depsKey, .list [.dict [("name", .str "postgres")]])]) }

/-- A command runner that fails exactly in charts/second. -/
def selectiveOracle : CommandRunner := fun i =>
  if i.cwd = "charts/second" then .error "exit status 1" else .ok ()

/-- C10 witness: with the second of three dependency-declaring descriptors
failing, the run's trace is the first invocation followed by the failing
one, nothing for the third, and the error is the second's. -/
theorem C10_sequential_and_fail_fast_witness :
    (fun _ => some [umbrellaChart, secondChart, thirdChart] : FileSystem) "root" =
      some [umbrellaChart, secondChart, thirdChart] ∧
    [umbrellaChart, secondChart, thirdChart] =
      [umbrellaChart] ++ secondChart :: [thirdChart] ∧
    (∀ p ∈ [umbrellaChart],
      (_build_chart_dependencies selectiveOracle p).2 = .ok ()) ∧
    (_build_chart_dependencies selectiveOracle secondChart).2 =
      .error { chartDir := "charts/second", cause := "exit status 1" } ∧
    build_helm_dependencies selectiveOracle
        (fun _ => some [umbrellaChart, secondChart, thirdChart]) "root" =
      (tracesOf selectiveOracle [umbrellaChart] ++
        (_build_chart_dependencies selectiveOracle secondChart).1,
       .error { chartDir := "charts/second", cause := "exit status 1" }) :=
  ⟨rfl, rfl,
   fun p hp => by
     rw [List.mem_singleton] at hp
     subst hp
     rfl,
   rfl,
   C10_sequential_and_fail_fast selectiveOracle
     (fun _ => some [umbrellaChart, secondChart, thirdChart]) "root"
     [umbrellaChart, secondChart, thirdChart] [umbrellaChart] [thirdChart]
     secondChart { chartDir := "charts/second", cause := "exit status 1" }
     rfl rfl
     (fun p hp => by
       rw [List.mem_singleton] at hp
       subst hp
       rfl)
     rfl⟩
